import Mathlib

/- Verification of the Instagram video controller content script
   (src/content/instagram.ts) against its specification.

   The script is shallowly embedded: JavaScript numbers are modelled as exact
   rationals (with an explicit constructor for NaN and the infinities where the
   code branches on finiteness), JavaScript integer arithmetic as Int with the
   truncating remainder spelled out, and the per-video DOM/controller state as
   explicit records.  Container resolution is abstracted as succeeding (the
   code's fallback keeps a container available); inline CSS properties are
   modelled as Option values, none meaning the property carries no inline
   override. -/

/-- JavaScript numeric fallback `a || b`: picks `b` exactly when `a` is `0`
(the only falsy finite number reaching these call sites). -/
def jsOr (a b : ℚ) : ℚ := if a = 0 then b else a

/-- Rotation update of `handleItemAction` (instagram.ts 333-339):
`newRotation = (currentRotation + degrees) % 360` with the JavaScript
truncating remainder, then `if (newRotation < 0) newRotation += 360`. -/
def rotateStep (currentRotation degrees : ℤ) : ℤ :=
  let newRotation := Int.tmod (currentRotation + degrees) 360
  if newRotation < 0 then newRotation + 360 else newRotation

/-- What `isStoryVideo` (instagram.ts 189-224) reads off one ancestor element:
whether it has a progressbar-role descendant, a Close- or Story-labelled
button descendant, a dialog role, or a SECTION tag. -/
structure AncestorInfo where
  hasProgressbarDesc : Bool
  hasCloseBtnDesc : Bool
  hasStoryBtnDesc : Bool
  roleDialog : Bool
  tagSection : Bool
deriving DecidableEq

/-- Ancestor walk of `isStoryVideo`: `while (parent && depth < 12)`, first the
progressbar check, then the Close/Story button check guarded by the
dialog-role-or-SECTION check on the same ancestor. -/
def storyWalk : List AncestorInfo → ℕ → Bool
  | [], _ => false
  | parent :: rest, depth =>
    if depth < 12 then
      if parent.hasProgressbarDesc then true
      else if (parent.hasCloseBtnDesc || parent.hasStoryBtnDesc)
              && (parent.roleDialog || parent.tagSection) then true
      else storyWalk rest (depth + 1)
    else false

/-- isStoryVideo (instagram.ts 189-224): URL check, then the ancestor walk. -/
def isStoryVideo (storiesPath : Bool) (ancestors : List AncestorInfo) : Bool :=
  if storiesPath then true else storyWalk ancestors 0

/-- Structured reading of the CSS transform string the script writes:
`rotate(Ddeg) [scale(S)] [scaleX(-1)]`. -/
structure CssTransform where
  degrees : ℤ
  scale : Option ℚ
  flipped : Bool
deriving DecidableEq

/-- Inline style properties the script touches on a video and on its resolved
container.  A value of none means the property holds no inline override. -/
structure Styles where
  transform : Option CssTransform := none
  width : Option String := none
  height : Option String := none
  marginTop : Option String := none
  marginLeft : Option String := none
  transition : Option String := none
  transformOrigin : Option String := none
  containerHeightPx : Option ℚ := none
deriving DecidableEq

/-- Pre-enhancement style state: no inline overrides on any touched property. -/
def initialStyles : Styles := {}

/-- Geometry inputs read by `applyRotation`: fullscreen flag, viewport size,
native video size (0 when metadata is unknown), video client size, and the
resolved container's client size. -/
structure RotationEnv where
  fullscreen : Bool
  innerWidth : ℚ
  innerHeight : ℚ
  videoWidth : ℚ
  videoHeight : ℚ
  clientWidth : ℚ
  clientHeight : ℚ
  containerClientWidth : ℚ
  containerClientHeight : ℚ
deriving DecidableEq

/-- applyRotation (instagram.ts 764-833).  The reset branch clears the five
video style properties and the container height and returns; otherwise the
transition and transform-origin are set and the transform is computed from
(degrees, flip, fullscreen): plain rotate for 0/180, scale 0.55 plus a
container-height adjustment inline for 90/270, cover scale
max(viewport width / video height, viewport height / video width) in
fullscreen for 90/270. -/
def applyRotation (env : RotationEnv) (degrees : ℤ) (flipState : Option Bool)
    (st : Styles) : Styles :=
  let isFlipped := flipState.getD false
  if degrees = 0 ∧ isFlipped = false then
    { st with transform := none, width := none, height := none,
              marginTop := none, marginLeft := none, containerHeightPx := none }
  else
    let videoWidth := jsOr env.videoWidth env.clientWidth
    let videoHeight := jsOr env.videoHeight env.clientHeight
    let targetWidth : ℚ := if env.fullscreen then env.innerWidth else env.containerClientWidth
    let targetHeight : ℚ :=
      if env.fullscreen then env.innerHeight
      else jsOr env.containerClientHeight targetWidth
    let st1 := { st with
      transition := some "transform 0.3s ease, margin 0.3s ease",
      transformOrigin := some "center center" }
    if degrees = 180 ∨ degrees = 0 then
      { st1 with
        transform := some { degrees := degrees, scale := none, flipped := isFlipped },
        containerHeightPx := if env.fullscreen then st1.containerHeightPx else none }
    else
      let scale : ℚ :=
        if env.fullscreen then max (targetWidth / videoHeight) (targetHeight / videoWidth)
        else 11 / 20
      let st2 :=
        if env.fullscreen then st1
        else { st1 with containerHeightPx := some (videoWidth * scale) }
      { st2 with
        transform := some { degrees := degrees, scale := some scale, flipped := isFlipped } }

/-- Per-video controller state: the WeakSet/WeakMap entries of
`InstagramVideoController` for one video element (none / absent where the
WeakMap holds no entry), the native `controls` attribute, the live volume and
mute flags, the presence and location of the overlay elements, and the data
the story classifier reads. -/
structure VideoState where
  storiesPath : Bool
  ancestors : List AncestorInfo
  processed : Bool
  rotationState : Option ℤ
  flipState : Option Bool
  intendedVolume : Option ℚ
  intendedMuted : Option Bool
  hasControlBar : Bool
  hasRotateBtn : Bool
  menuInContainer : Bool
  menuOnBody : Bool
  controls : Bool
  volume : ℚ
  muted : Bool
  styles : Styles
deriving DecidableEq

/-- enhanceVideo (instagram.ts 154-187): skip when disabled, already
processed, or a story; otherwise register, reset the rotation entry to 0,
snapshot the volume/mute intent, disable native controls and attach the
control bar, rotation button and (closed) rotation menu.  The flip entry is
not touched. -/
def enhanceVideo (isEnabled : Bool) (v : VideoState) : VideoState :=
  if !isEnabled then v
  else if v.processed then v
  else if isStoryVideo v.storiesPath v.ancestors then v
  else
    { v with
        processed := true
        rotationState := some 0
        intendedVolume := some v.volume
        intendedMuted := some v.muted
        controls := false
        hasControlBar := true
        hasRotateBtn := true
        menuInContainer := true }

/-- The per-video body of removeAllControls (instagram.ts 80-117): detach the
control bar, remove the rotation button and the rotation menu found inside the
container (a menu reparented to document.body is not found by
`container.querySelector` and is left in place), clear the container height
and the video's inline transform/size/margin styles, restore native controls
and drop the video from the processed set.  The rotation, flip and intent
entries are not deleted. -/
def removeControlsVideo (v : VideoState) : VideoState :=
  { v with
      hasControlBar := false
      hasRotateBtn := false
      menuInContainer := false
      styles := { v.styles with
        containerHeightPx := none, transform := none, width := none,
        height := none, marginTop := none, marginLeft := none }
      controls := true
      processed := false }

/-- removeAllControls iterates the per-video teardown over every video in the
document. -/
def removeAllControls (videos : List VideoState) : List VideoState :=
  videos.map removeControlsVideo

/-- processExistingVideos (instagram.ts 119-125): enhance every video in the
document. -/
def processExistingVideos (isEnabled : Bool) (videos : List VideoState) : List VideoState :=
  videos.map (enhanceVideo isEnabled)

/-- Menu close step shared by `handleItemAction` and `toggleMenu`: when the
menu sits under document.body it is reparented back into the container. -/
def closeMenu (v : VideoState) : VideoState :=
  if v.menuOnBody then { v with menuOnBody := false, menuInContainer := true } else v

/-- Open branch of toggleMenu (instagram.ts 381-410): the menu is moved from
the container to document.body. -/
def toggleMenuOpen (v : VideoState) : VideoState :=
  { v with menuInContainer := false, menuOnBody := true }

/-- handleItemAction for the two rotate items (instagram.ts 326-354): store
the stepped rotation, re-apply the transform for the stored angle and current
flip state, then close the menu. -/
def handleItemActionRotate (env : RotationEnv) (degrees : ℤ) (v : VideoState) : VideoState :=
  let v1 := { v with rotationState := some (rotateStep (v.rotationState.getD 0) degrees) }
  let v2 := { v1 with
    styles := applyRotation env (v1.rotationState.getD 0) v1.flipState v1.styles }
  closeMenu v2

/-- handleItemAction for the flip item (instagram.ts 326-354): toggle the
stored flip flag, re-apply the transform for the stored angle and new flip
state, then close the menu. -/
def handleItemActionFlip (env : RotationEnv) (v : VideoState) : VideoState :=
  let v1 := { v with flipState := some (!(v.flipState.getD false)) }
  let v2 := { v1 with
    styles := applyRotation env (v1.rotationState.getD 0) v1.flipState v1.styles }
  closeMenu v2

/-- Per-video volume state: the intent WeakMap entries (absent before
enhancement) and the video element's live volume and mute flags. -/
structure VolumeState where
  intendedVolume : Option ℚ
  intendedMuted : Option Bool
  volume : ℚ
  muted : Bool
deriving DecidableEq

/-- Click handler of the volume track (instagram.ts 713-727): bail out on a
zero-width rect, clamp the pointer fraction to [0,1], record the intended
volume and intended unmute first, and only then write the video element's
volume and muted fields. -/
def volumeTrackClick (clientX rectLeft rectWidth : ℚ) (s : VolumeState) : VolumeState :=
  if rectWidth = 0 then s
  else
    let pos := (clientX - rectLeft) / rectWidth
    let pos := max 0 (min 1 pos)
    let s1 := { s with intendedVolume := some pos }
    let s2 := { s1 with intendedMuted := some false }
    let s3 := { s2 with volume := pos }
    { s3 with muted := false }

/-- enforceVolumeState (instagram.ts 663-688), registered on the play and
playing events: when both intent entries exist and the live state drifts from
intent beyond the 0.01 tolerance (or the mute flags differ), restore the live
state to intent. -/
def enforceVolumeState (s : VolumeState) : VolumeState :=
  match s.intendedVolume, s.intendedMuted with
  | some intentVol, some intentMute =>
      if 1 / 100 < |s.volume - intentVol| ∨ s.muted ≠ intentMute then
        { s with volume := intentVol, muted := intentMute }
      else s
  | _, _ => s

/-- The event fields the handlers inspect. -/
structure EventInfo where
  cancelable : Bool
deriving DecidableEq

/-- Observable outcome of pushing one event through a handler. -/
structure InteractionOutcome where
  propagationStopped : Bool
  defaultPrevented : Bool
  fired : Bool
deriving DecidableEq

/-- processInteraction (instagram.ts 282-296): stop propagation, prevent the
default when cancelable, then drop the event when it arrives less than 300 ms
after the shared last-interaction time, else accept it and record its time. -/
def processInteraction (lastInteractionTime now : ℤ) (e : EventInfo) :
    ℤ × InteractionOutcome :=
  if now - lastInteractionTime < 300 then
    (lastInteractionTime,
     { propagationStopped := true, defaultPrevented := e.cancelable, fired := false })
  else
    (now, { propagationStopped := true, defaultPrevented := e.cancelable, fired := true })

/-- The times at which actions fire when a stream of events at the given times
runs through the shared debounce state of `processInteraction`. -/
def debounceAccepted : ℤ → List ℤ → List ℤ
  | _, [] => []
  | last, t :: ts =>
    let r := processInteraction last t { cancelable := true }
    if r.2.fired then t :: debounceAccepted r.1 ts
    else debounceAccepted r.1 ts

/-- addInteraction (instagram.ts 518-528), used for the play, fullscreen and
volume buttons of the control bar: a plain click listener that stops
propagation, prevents the default and invokes the handler on every event,
with no debounce. -/
def addInteractionHandle (_now : ℤ) (_e : EventInfo) : InteractionOutcome :=
  { propagationStopped := true, defaultPrevented := true, fired := true }

/-- The times at which a control wired through `addInteraction` fires. -/
def addInteractionFires (ts : List ℤ) : List ℤ :=
  ts.filter fun t => (addInteractionHandle t { cancelable := true }).fired

/-- JavaScript number as the script's arithmetic observes it: an exact
rational, or one of the non-finite values. -/
inductive JSNum where
  | finite (q : ℚ)
  | nan
  | posInf
  | negInf
deriving DecidableEq

/-- Number.isFinite. -/
def JSNum.isFinite : JSNum → Bool
  | .finite _ => true
  | _ => false

/-- JavaScript truthiness of a number: 0 and NaN are falsy. -/
def JSNum.truthy : JSNum → Bool
  | .finite q => decide (q ≠ 0)
  | .nan => false
  | _ => true

/-- JavaScript comparison with 0; false for NaN. -/
def JSNum.gtZero : JSNum → Bool
  | .finite q => decide (0 < q)
  | .posInf => true
  | _ => false

/-- Truncation toward zero: the rounding of the JavaScript remainder. -/
def ratTrunc (x : ℚ) : ℤ := if 0 ≤ x then ⌊x⌋ else -⌊-x⌋

/-- The JavaScript remainder on finite operands:
`x % y = x - y * trunc(x / y)` (exact for the remainder operation). -/
def jsFmod (x y : ℚ) : ℚ := x - y * (ratTrunc (x / y) : ℚ)

/-- String.padStart(2, "0"). -/
def padStart2 (s : String) : String :=
  if s.length < 2 then String.mk (List.replicate (2 - s.length) '0') ++ s else s

/-- formatTime (instagram.ts 583-588): "0:00" for every non-finite input, else
minutes = floor(seconds / 60), seconds = floor(seconds % 60) zero-padded to
two digits, joined by a colon. -/
def formatTime (seconds : JSNum) : String :=
  match seconds with
  | .finite q =>
      let m : ℤ := ⌊q / 60⌋
      let s : ℤ := ⌊jsFmod q 60⌋
      toString m ++ ":" ++ padStart2 (toString s)
  | _ => "0:00"

/-- Progress-fill computation of updateTime (instagram.ts 590-601):
`duration = video.duration || 0`, then percent stays 0 unless the duration is
positive and finite. -/
def progressPercent (current : ℚ) (duration : JSNum) : ℚ :=
  let d : JSNum := if duration.truthy then duration else .finite 0
  if d.gtZero && d.isFinite then
    match d with
    | .finite dq => current / dq * 100
    | _ => 0
  else 0

/-- Sample inline geometry: a 1920x1080 video in a 400x500 container. -/
def sampleEnv : RotationEnv :=
  { fullscreen := false, innerWidth := 1280, innerHeight := 720,
    videoWidth := 1920, videoHeight := 1080, clientWidth := 400, clientHeight := 300,
    containerClientWidth := 400, containerClientHeight := 500 }

/-- Sample fullscreen geometry: the same video in a 1280x720 viewport. -/
def sampleFsEnv : RotationEnv :=
  { sampleEnv with fullscreen := true }

/-- A freshly discovered, not yet enhanced, non-story feed video. -/
def sampleVideo : VideoState :=
  { storiesPath := false, ancestors := [], processed := false,
    rotationState := none, flipState := none, intendedVolume := none,
    intendedMuted := none, hasControlBar := false, hasRotateBtn := false,
    menuInContainer := false, menuOnBody := false, controls := true,
    volume := 1, muted := false, styles := initialStyles }

/-- A story video: its direct parent contains a progressbar-role descendant. -/
def sampleStoryVideo : VideoState :=
  { sampleVideo with
      ancestors := [{ hasProgressbarDesc := true, hasCloseBtnDesc := false,
                      hasStoryBtnDesc := false, roleDialog := false, tagSection := false }] }

/-- A reachable state exercised by the C2 counterexample: enhance the sample
video, open its rotation menu, flip it (which closes the menu), and open the
menu again.  The video ends up flipped with its menu parked under
document.body. -/
def flippedOpenMenuVideo : VideoState :=
  toggleMenuOpen (handleItemActionFlip sampleEnv (toggleMenuOpen (enhanceVideo true sampleVideo)))

/- Helper lemmas. -/

lemma tmod_eq_self_of_neg {x : ℤ} (h1 : -360 < x) (h2 : x < 0) :
    Int.tmod x 360 = x := by
  have htd : (-x).tdiv 360 = 0 := Int.tdiv_eq_zero_of_lt (by omega) (by omega)
  have hx : x.tdiv 360 = 0 := by
    have h := Int.neg_tdiv (-x) 360
    rw [neg_neg] at h
    rw [h, htd, neg_zero]
  rw [Int.tmod_def, hx]
  ring

lemma rotateStep_eq_emod {cur d : ℤ} (h0 : 0 ≤ cur) (h1 : cur < 360)
    (hd : d = -90 ∨ d = 90) : rotateStep cur d = (cur + d) % 360 := by
  unfold rotateStep
  rcases le_or_lt 0 (cur + d) with hx | hx
  · rw [Int.tmod_eq_emod hx (by norm_num)]
    have hnn : 0 ≤ (cur + d) % 360 := Int.emod_nonneg _ (by norm_num)
    rw [if_neg (by omega)]
  · have hgt : -360 < cur + d := by rcases hd with h | h <;> omega
    rw [tmod_eq_self_of_neg hgt hx, if_pos hx]
    omega

lemma rotateStep_bounds {cur d : ℤ} (h0 : 0 ≤ cur) (h1 : cur < 360)
    (hd : d = -90 ∨ d = 90) : 0 ≤ rotateStep cur d ∧ rotateStep cur d < 360 := by
  rw [rotateStep_eq_emod h0 h1 hd]
  omega

lemma foldl_rotateStep (moves : List ℤ) : ∀ cur : ℤ, 0 ≤ cur → cur < 360 →
    (∀ d ∈ moves, d = -90 ∨ d = 90) →
    moves.foldl rotateStep cur = (cur + moves.sum) % 360 := by
  induction moves with
  | nil =>
      intro cur h0 h1 _
      simpa using (Int.emod_eq_of_lt h0 h1).symm
  | cons d rest ih =>
      intro cur h0 h1 hm
      have hd := hm d (by simp)
      obtain ⟨hb0, hb1⟩ := rotateStep_bounds h0 h1 hd
      rw [List.foldl_cons, ih _ hb0 hb1 (fun x hx => hm x (by simp [hx])),
        rotateStep_eq_emod h0 h1 hd, List.sum_cons]
      omega

lemma rotationState_closeMenu (v : VideoState) :
    (closeMenu v).rotationState = v.rotationState := by
  unfold closeMenu
  split <;> rfl

lemma flipState_closeMenu (v : VideoState) :
    (closeMenu v).flipState = v.flipState := by
  unfold closeMenu
  split <;> rfl

lemma rotationState_handleRotate (env : RotationEnv) (d : ℤ) (v : VideoState) :
    (handleItemActionRotate env d v).rotationState
      = some (rotateStep (v.rotationState.getD 0) d) := by
  simp [handleItemActionRotate, rotationState_closeMenu]

lemma rotationState_foldl (env : RotationEnv) (moves : List ℤ) :
    ∀ (v : VideoState) (r : ℤ), v.rotationState = some r →
    (moves.foldl (fun s d => handleItemActionRotate env d s) v).rotationState
      = some (moves.foldl rotateStep r) := by
  induction moves with
  | nil =>
      intro v r h
      simpa using h
  | cons d rest ih =>
      intro v r h
      rw [List.foldl_cons, List.foldl_cons]
      refine ih _ (rotateStep r d) ?_
      rw [rotationState_handleRotate, h]
      rfl

/-- C1: for every sequence of rotate-left (-90) and rotate-right (+90) menu
actions applied to a registered video whose stored angle starts at 0, the
stored rotation angle equals the sum of the signed increments taken modulo
360 and normalised into [0,360). -/
theorem rotation_sequence_angle (env : RotationEnv) (v : VideoState) (moves : List ℤ)
    (hv : v.rotationState = some 0) (hm : ∀ d ∈ moves, d = -90 ∨ d = 90) :
    (moves.foldl (fun s d => handleItemActionRotate env d s) v).rotationState
      = some (moves.sum % 360)
    ∧ 0 ≤ moves.sum % 360 ∧ moves.sum % 360 < 360 := by
  refine ⟨?_, Int.emod_nonneg _ (by norm_num), Int.emod_lt_of_pos _ (by norm_num)⟩
  rw [rotationState_foldl env moves v 0 hv,
    foldl_rotateStep moves 0 (by norm_num) (by norm_num) hm]
  norm_num

/-- Witness for C1: three rotate-rights from 0 store 270, a fourth stores 0. -/
theorem rotation_sequence_angle_witness :
    ((enhanceVideo true sampleVideo).rotationState = some 0
      ∧ (∀ d ∈ [(90:ℤ), 90, 90], d = -90 ∨ d = 90)
      ∧ (∀ d ∈ [(90:ℤ), 90, 90, 90], d = -90 ∨ d = 90))
    ∧ ([(90:ℤ), 90, 90].foldl (fun s d => handleItemActionRotate sampleEnv d s)
        (enhanceVideo true sampleVideo)).rotationState = some 270
    ∧ ([(90:ℤ), 90, 90, 90].foldl (fun s d => handleItemActionRotate sampleEnv d s)
        (enhanceVideo true sampleVideo)).rotationState = some 0 := by
  refine ⟨⟨by decide, by decide, by decide⟩, ?_, ?_⟩
  · have h := rotation_sequence_angle sampleEnv (enhanceVideo true sampleVideo)
      [(90:ℤ), 90, 90] (by decide) (by decide)
    simpa using h.1
  · have h := rotation_sequence_angle sampleEnv (enhanceVideo true sampleVideo)
      [(90:ℤ), 90, 90, 90] (by decide) (by decide)
    simpa using h.1

/-- C9: the flip menu action is an involution on the effective flip state:
toggling twice restores the effective flip boolean for every starting entry
(absent, stored false or stored true), and the entry itself ends up storing
exactly that boolean. -/
theorem flip_double_toggle (env1 env2 : RotationEnv) (v : VideoState) :
    (handleItemActionFlip env2 (handleItemActionFlip env1 v)).flipState.getD false
      = v.flipState.getD false
    ∧ (handleItemActionFlip env2 (handleItemActionFlip env1 v)).flipState
      = some (v.flipState.getD false) := by
  constructor <;> simp [handleItemActionFlip, flipState_closeMenu]

/-- C2 counterexample: a reachable flipped video whose rotation menu is open
(reparented under document.body).  Disabling the preference leaves the menu
element in the DOM (removeAllControls looks for it only inside the container),
and re-enabling re-enhances the video with its stored flip state still true,
so the flip state is not reset to false. -/
theorem disable_enable_claim_refuted :
    isStoryVideo flippedOpenMenuVideo.storiesPath flippedOpenMenuVideo.ancestors = false
    ∧ flippedOpenMenuVideo.menuOnBody = true
    ∧ (removeControlsVideo flippedOpenMenuVideo).menuOnBody = true
    ∧ (enhanceVideo true (removeControlsVideo flippedOpenMenuVideo)).processed = true
    ∧ (enhanceVideo true (removeControlsVideo flippedOpenMenuVideo)).flipState = some true
    ∧ ((enhanceVideo true (removeControlsVideo flippedOpenMenuVideo)).flipState.getD false
        ≠ false) := by
  decide

/-- C2 amended: disabling removes the control bar and the rotation button for
every present video, removes the rotation menu when it sits in the container
(an open menu under document.body is left in place), clears the transform and
size overrides, restores native controls and unregisters the video;
re-enabling re-enhances every present non-story video with the rotation angle
reset to 0, but the stored flip state is not reset: it retains its prior
value. -/
theorem disable_enable_cycle (v : VideoState) :
    ((removeControlsVideo v).hasControlBar = false
      ∧ (removeControlsVideo v).hasRotateBtn = false
      ∧ (removeControlsVideo v).menuInContainer = false
      ∧ (removeControlsVideo v).menuOnBody = v.menuOnBody
      ∧ (removeControlsVideo v).controls = true
      ∧ (removeControlsVideo v).styles.transform = none
      ∧ (removeControlsVideo v).styles.width = none
      ∧ (removeControlsVideo v).styles.height = none
      ∧ (removeControlsVideo v).styles.marginTop = none
      ∧ (removeControlsVideo v).styles.marginLeft = none
      ∧ (removeControlsVideo v).styles.containerHeightPx = none
      ∧ (removeControlsVideo v).processed = false)
    ∧ (isStoryVideo v.storiesPath v.ancestors = false →
        (enhanceVideo true (removeControlsVideo v)).processed = true
        ∧ (enhanceVideo true (removeControlsVideo v)).rotationState = some 0
        ∧ (enhanceVideo true (removeControlsVideo v)).hasControlBar = true
        ∧ (enhanceVideo true (removeControlsVideo v)).hasRotateBtn = true
        ∧ (enhanceVideo true (removeControlsVideo v)).menuInContainer = true
        ∧ (enhanceVideo true (removeControlsVideo v)).controls = false
        ∧ (enhanceVideo true (removeControlsVideo v)).flipState = v.flipState) := by
  constructor
  · simp [removeControlsVideo]
  · intro h
    simp [enhanceVideo, removeControlsVideo, h]

/-- Witness for C2 amended, at the sample feed video. -/
theorem disable_enable_cycle_witness :
    isStoryVideo sampleVideo.storiesPath sampleVideo.ancestors = false
    ∧ ((removeControlsVideo sampleVideo).hasControlBar = false
      ∧ (removeControlsVideo sampleVideo).hasRotateBtn = false
      ∧ (removeControlsVideo sampleVideo).menuInContainer = false
      ∧ (removeControlsVideo sampleVideo).menuOnBody = sampleVideo.menuOnBody
      ∧ (removeControlsVideo sampleVideo).controls = true
      ∧ (removeControlsVideo sampleVideo).styles.transform = none
      ∧ (removeControlsVideo sampleVideo).styles.width = none
      ∧ (removeControlsVideo sampleVideo).styles.height = none
      ∧ (removeControlsVideo sampleVideo).styles.marginTop = none
      ∧ (removeControlsVideo sampleVideo).styles.marginLeft = none
      ∧ (removeControlsVideo sampleVideo).styles.containerHeightPx = none
      ∧ (removeControlsVideo sampleVideo).processed = false)
    ∧ ((enhanceVideo true (removeControlsVideo sampleVideo)).processed = true
      ∧ (enhanceVideo true (removeControlsVideo sampleVideo)).rotationState = some 0
      ∧ (enhanceVideo true (removeControlsVideo sampleVideo)).hasControlBar = true
      ∧ (enhanceVideo true (removeControlsVideo sampleVideo)).hasRotateBtn = true
      ∧ (enhanceVideo true (removeControlsVideo sampleVideo)).menuInContainer = true
      ∧ (enhanceVideo true (removeControlsVideo sampleVideo)).controls = false
      ∧ (enhanceVideo true (removeControlsVideo sampleVideo)).flipState = sampleVideo.flipState) :=
  ⟨by decide, (disable_enable_cycle sampleVideo).1,
    (disable_enable_cycle sampleVideo).2 (by decide)⟩

/-- C7: a video the story classifier flags is left completely untouched by
enhancement, no matter how many times discovery re-presents it: it is never
registered and no overlay element is ever attached. -/
theorem story_video_never_enhanced (v : VideoState)
    (h : isStoryVideo v.storiesPath v.ancestors = true) (n : ℕ) :
    (enhanceVideo true)^[n] v = v
    ∧ ((enhanceVideo true)^[n] v).processed = v.processed
    ∧ ((enhanceVideo true)^[n] v).hasControlBar = v.hasControlBar
    ∧ ((enhanceVideo true)^[n] v).hasRotateBtn = v.hasRotateBtn
    ∧ ((enhanceVideo true)^[n] v).menuInContainer = v.menuInContainer := by
  have hfix : enhanceVideo true v = v := by
    simp [enhanceVideo, h]
  have hit : (enhanceVideo true)^[n] v = v := Function.iterate_fixed hfix n
  rw [hit]
  exact ⟨rfl, rfl, rfl, rfl, rfl⟩

/-- Witness for C7: the sample story video, re-presented five times. -/
theorem story_video_never_enhanced_witness :
    isStoryVideo sampleStoryVideo.storiesPath sampleStoryVideo.ancestors = true
    ∧ ((enhanceVideo true)^[5] sampleStoryVideo = sampleStoryVideo
      ∧ ((enhanceVideo true)^[5] sampleStoryVideo).processed = sampleStoryVideo.processed
      ∧ ((enhanceVideo true)^[5] sampleStoryVideo).hasControlBar = sampleStoryVideo.hasControlBar
      ∧ ((enhanceVideo true)^[5] sampleStoryVideo).hasRotateBtn = sampleStoryVideo.hasRotateBtn
      ∧ ((enhanceVideo true)^[5] sampleStoryVideo).menuInContainer
          = sampleStoryVideo.menuInContainer) :=
  ⟨by decide, story_video_never_enhanced sampleStoryVideo (by decide) 5⟩

/-- C3: a click on the volume track at pointer position clientX over a
non-degenerate track rect records intendedVolume = clamped fraction and
intendedMuted = false (written before the video element's fields, as the
definition of `volumeTrackClick` sequences it), after which the enforcement
step run on play/playing observes no drift beyond the 0.01 tolerance and
leaves the state untouched: the user's explicit choice is not overridden. -/
theorem volume_click_no_override (clientX rectLeft rectWidth : ℚ) (s : VolumeState)
    (hw : rectWidth ≠ 0) :
    enforceVolumeState (volumeTrackClick clientX rectLeft rectWidth s)
      = volumeTrackClick clientX rectLeft rectWidth s
    ∧ (volumeTrackClick clientX rectLeft rectWidth s).intendedVolume
      = some (max 0 (min 1 ((clientX - rectLeft) / rectWidth)))
    ∧ (volumeTrackClick clientX rectLeft rectWidth s).intendedMuted = some false
    ∧ (volumeTrackClick clientX rectLeft rectWidth s).volume
      = max 0 (min 1 ((clientX - rectLeft) / rectWidth))
    ∧ (volumeTrackClick clientX rectLeft rectWidth s).muted = false := by
  refine ⟨?_, by simp [volumeTrackClick, hw], by simp [volumeTrackClick, hw],
    by simp [volumeTrackClick, hw], by simp [volumeTrackClick, hw]⟩
  simp only [volumeTrackClick, hw, if_false]
  unfold enforceVolumeState
  norm_num

/-- Witness for C3: a click at fraction 1/2 of a 4-wide track. -/
theorem volume_click_no_override_witness :
    ((4:ℚ) ≠ 0)
    ∧ (enforceVolumeState (volumeTrackClick 3 1 4
          { intendedVolume := none, intendedMuted := none, volume := 1, muted := true })
        = volumeTrackClick 3 1 4
          { intendedVolume := none, intendedMuted := none, volume := 1, muted := true }
      ∧ (volumeTrackClick 3 1 4
          { intendedVolume := none, intendedMuted := none, volume := 1, muted := true }).intendedVolume
        = some (max 0 (min 1 (((3:ℚ) - 1) / 4)))
      ∧ (volumeTrackClick 3 1 4
          { intendedVolume := none, intendedMuted := none, volume := 1, muted := true }).intendedMuted
        = some false
      ∧ (volumeTrackClick 3 1 4
          { intendedVolume := none, intendedMuted := none, volume := 1, muted := true }).volume
        = max 0 (min 1 (((3:ℚ) - 1) / 4))
      ∧ (volumeTrackClick 3 1 4
          { intendedVolume := none, intendedMuted := none, volume := 1, muted := true }).muted
        = false) :=
  ⟨by norm_num,
    volume_click_no_override 3 1 4
      { intendedVolume := none, intendedMuted := none, volume := 1, muted := true }
      (by norm_num)⟩

/-- C4: a 90- or 270-degree rotation in fullscreen with known native video
dimensions applies the cover scale max(viewport width / video height,
viewport height / video width) and leaves the container height untouched. -/
theorem fullscreen_cover_scale (env : RotationEnv) (st : Styles) (fs : Option Bool)
    (d : ℤ) (hfs : env.fullscreen = true) (hd : d = 90 ∨ d = 270)
    (hvW : env.videoWidth ≠ 0) (hvH : env.videoHeight ≠ 0) :
    (applyRotation env d fs st).transform
      = some { degrees := d,
               scale := some (max (env.innerWidth / env.videoHeight)
                                  (env.innerHeight / env.videoWidth)),
               flipped := fs.getD false }
    ∧ (applyRotation env d fs st).containerHeightPx = st.containerHeightPx := by
  rcases hd with rfl | rfl <;>
    simp [applyRotation, jsOr, hfs, hvW, hvH]

/-- Witness for C4: the 1920x1080 video in the 1280x720 fullscreen viewport;
the applied scale is max(1280/1080, 720/1920) = 32/27, which is within 0.001
of 1.185, and the container height is untouched. -/
theorem fullscreen_cover_scale_witness :
    (sampleFsEnv.fullscreen = true ∧ ((90:ℤ) = 90 ∨ (90:ℤ) = 270)
      ∧ sampleFsEnv.videoWidth ≠ 0 ∧ sampleFsEnv.videoHeight ≠ 0)
    ∧ (applyRotation sampleFsEnv 90 none initialStyles).transform
      = some { degrees := 90,
               scale := some (max (sampleFsEnv.innerWidth / sampleFsEnv.videoHeight)
                                  (sampleFsEnv.innerHeight / sampleFsEnv.videoWidth)),
               flipped := false }
    ∧ (applyRotation sampleFsEnv 90 none initialStyles).containerHeightPx
      = initialStyles.containerHeightPx
    ∧ max (sampleFsEnv.innerWidth / sampleFsEnv.videoHeight)
        (sampleFsEnv.innerHeight / sampleFsEnv.videoWidth) = 32 / 27
    ∧ |(32:ℚ) / 27 - 1185 / 1000| < 1 / 1000 := by
  have h := fullscreen_cover_scale sampleFsEnv initialStyles none 90
    (by decide) (Or.inl rfl) (by decide) (by decide)
  exact ⟨⟨rfl, Or.inl rfl, by decide, by decide⟩, h.1, h.2, by norm_num [sampleFsEnv, sampleEnv],
    by rw [abs_of_pos] <;> norm_num⟩

/-- C5: a 90- or 270-degree rotation outside fullscreen with a known native
video width applies the fixed scale 0.55 = 11/20 and sets the container
height to the native video width times 0.55. -/
theorem inline_scale_fixed (env : RotationEnv) (st : Styles) (fs : Option Bool)
    (d : ℤ) (hfs : env.fullscreen = false) (hd : d = 90 ∨ d = 270)
    (hvW : env.videoWidth ≠ 0) :
    (applyRotation env d fs st).transform
      = some { degrees := d, scale := some (11 / 20), flipped := fs.getD false }
    ∧ (applyRotation env d fs st).containerHeightPx
      = some (env.videoWidth * (11 / 20)) := by
  rcases hd with rfl | rfl <;>
    simp [applyRotation, jsOr, hfs, hvW]

/-- Witness for C5: the 1920-wide video rotated 90 degrees inline gets scale
11/20 and container height 1920 * 0.55 = 1056 pixels, exactly. -/
theorem inline_scale_fixed_witness :
    (sampleEnv.fullscreen = false ∧ ((90:ℤ) = 90 ∨ (90:ℤ) = 270)
      ∧ sampleEnv.videoWidth ≠ 0)
    ∧ (applyRotation sampleEnv 90 none initialStyles).transform
      = some { degrees := 90, scale := some (11 / 20), flipped := false }
    ∧ (applyRotation sampleEnv 90 none initialStyles).containerHeightPx
      = some (sampleEnv.videoWidth * (11 / 20))
    ∧ sampleEnv.videoWidth * (11 / 20) = 1056 := by
  have h := inline_scale_fixed sampleEnv initialStyles none 90
    (by decide) (Or.inl rfl) (by decide)
  exact ⟨⟨rfl, Or.inl rfl, by decide⟩, h.1, h.2, by norm_num [sampleEnv]⟩

/-- C6: applying the transform for angle 0 with effective flip false, in any
layout regime and after any prior sequence of transform applications starting
from the pre-enhancement style state, clears the transform, width, height,
margin-top and margin-left overrides on the video and the height override on
the container: those properties are restored to their pre-enhancement
(no-inline-override) values. -/
theorem reset_clears_overrides (apps : List (RotationEnv × ℤ × Option Bool))
    (env : RotationEnv) (fs : Option Bool) (hfs : fs.getD false = false) :
    (applyRotation env 0 fs
        (apps.foldl (fun st a => applyRotation a.1 a.2.1 a.2.2 st) initialStyles)).transform
      = initialStyles.transform
    ∧ (applyRotation env 0 fs
        (apps.foldl (fun st a => applyRotation a.1 a.2.1 a.2.2 st) initialStyles)).width
      = initialStyles.width
    ∧ (applyRotation env 0 fs
        (apps.foldl (fun st a => applyRotation a.1 a.2.1 a.2.2 st) initialStyles)).height
      = initialStyles.height
    ∧ (applyRotation env 0 fs
        (apps.foldl (fun st a => applyRotation a.1 a.2.1 a.2.2 st) initialStyles)).marginTop
      = initialStyles.marginTop
    ∧ (applyRotation env 0 fs
        (apps.foldl (fun st a => applyRotation a.1 a.2.1 a.2.2 st) initialStyles)).marginLeft
      = initialStyles.marginLeft
    ∧ (applyRotation env 0 fs
        (apps.foldl (fun st a => applyRotation a.1 a.2.1 a.2.2 st) initialStyles)).containerHeightPx
      = initialStyles.containerHeightPx := by
  have key : ∀ st : Styles, applyRotation env 0 fs st
      = { st with transform := none, width := none, height := none,
                  marginTop := none, marginLeft := none, containerHeightPx := none } := by
    intro st
    simp [applyRotation, hfs]
  rw [key]
  exact ⟨rfl, rfl, rfl, rfl, rfl, rfl⟩

/-- Witness for C6: a fullscreen 90-degree flipped application followed by an
inline 180-degree one, then the reset. -/
theorem reset_clears_overrides_witness :
    ((none : Option Bool).getD false = false)
    ∧ ((applyRotation sampleEnv 0 none
          ([(sampleFsEnv, 90, some true), (sampleEnv, 180, none)].foldl
            (fun st a => applyRotation a.1 a.2.1 a.2.2 st) initialStyles)).transform
        = initialStyles.transform
      ∧ (applyRotation sampleEnv 0 none
          ([(sampleFsEnv, 90, some true), (sampleEnv, 180, none)].foldl
            (fun st a => applyRotation a.1 a.2.1 a.2.2 st) initialStyles)).width
        = initialStyles.width
      ∧ (applyRotation sampleEnv 0 none
          ([(sampleFsEnv, 90, some true), (sampleEnv, 180, none)].foldl
            (fun st a => applyRotation a.1 a.2.1 a.2.2 st) initialStyles)).height
        = initialStyles.height
      ∧ (applyRotation sampleEnv 0 none
          ([(sampleFsEnv, 90, some true), (sampleEnv, 180, none)].foldl
            (fun st a => applyRotation a.1 a.2.1 a.2.2 st) initialStyles)).marginTop
        = initialStyles.marginTop
      ∧ (applyRotation sampleEnv 0 none
          ([(sampleFsEnv, 90, some true), (sampleEnv, 180, none)].foldl
            (fun st a => applyRotation a.1 a.2.1 a.2.2 st) initialStyles)).marginLeft
        = initialStyles.marginLeft
      ∧ (applyRotation sampleEnv 0 none
          ([(sampleFsEnv, 90, some true), (sampleEnv, 180, none)].foldl
            (fun st a => applyRotation a.1 a.2.1 a.2.2 st) initialStyles)).containerHeightPx
        = initialStyles.containerHeightPx) :=
  ⟨rfl, reset_clears_overrides [(sampleFsEnv, 90, some true), (sampleEnv, 180, none)]
    sampleEnv none rfl⟩

lemma debounceAccepted_cons (last t : ℤ) (ts : List ℤ) :
    debounceAccepted last (t :: ts)
      = if t - last < 300 then debounceAccepted last ts
        else t :: debounceAccepted t ts := by
  rw [debounceAccepted]
  by_cases hc : t - last < 300
  · simp [processInteraction, hc]
  · simp [processInteraction, hc]

lemma debounceAccepted_mem {ts : List ℤ} :
    ∀ {last t : ℤ}, t ∈ debounceAccepted last ts → last + 300 ≤ t := by
  induction ts with
  | nil =>
      intro last t h
      simp [debounceAccepted] at h
  | cons a as ih =>
      intro last t h
      rw [debounceAccepted_cons] at h
      by_cases hc : a - last < 300
      · rw [if_pos hc] at h
        exact ih h
      · rw [if_neg hc] at h
        rcases List.mem_cons.mp h with rfl | h
        · omega
        · have := ih h
          omega

lemma debounceAccepted_chain (last : ℤ) (ts : List ℤ) :
    List.Chain' (fun a b => a + 300 ≤ b) (debounceAccepted last ts) := by
  induction ts generalizing last with
  | nil => simp [debounceAccepted]
  | cons a as ih =>
      rw [debounceAccepted_cons]
      by_cases hc : a - last < 300
      · rw [if_pos hc]
        exact ih last
      · rw [if_neg hc, List.chain'_cons']
        refine ⟨?_, ih a⟩
        intro y hy
        exact debounceAccepted_mem (List.mem_of_mem_head? hy)

/-- C8 counterexample: the play, fullscreen and volume buttons of the control
bar are wired through `addInteraction`, which has no debounce; two click
events 100 ms apart on such a button-like control both fire their action, so
the claim that no button-like control ever fires twice within 300 ms is
false. -/
theorem control_bar_debounce_refuted :
    addInteractionFires [0, 100] = [0, 100] ∧ (100:ℤ) - 0 < 300 := by
  constructor
  · rfl
  · norm_num

/-- C8 amended: the rotation button and the rotation-menu items, wired through
`processInteraction`, do debounce: an event arriving less than 300 ms after
the group's last accepted interaction performs no action, and any two
consecutive accepted interaction times are at least 300 ms apart; the
control-bar buttons wired through `addInteraction` carry no debounce and fire
on every event. -/
theorem debounce_no_double_fire (last now : ℤ) (e : EventInfo) (ts : List ℤ)
    (h : now - last < 300) :
    (processInteraction last now e).2.fired = false
    ∧ (processInteraction last now e).1 = last
    ∧ List.Chain' (fun a b => a + 300 ≤ b) (debounceAccepted last ts) := by
  refine ⟨?_, ?_, debounceAccepted_chain last ts⟩
  · simp [processInteraction, h]
  · simp [processInteraction, h]

/-- Witness for C8 amended: an event 100 ms after the last accepted one is
dropped, and the accepted times of the stream [0, 100, 250, 600] starting
from last-interaction time 0 are spaced at least 300 ms apart. -/
theorem debounce_no_double_fire_witness :
    ((100:ℤ) - 0 < 300)
    ∧ ((processInteraction 0 100 { cancelable := true }).2.fired = false
      ∧ (processInteraction 0 100 { cancelable := true }).1 = 0
      ∧ List.Chain' (fun a b => a + 300 ≤ b) (debounceAccepted 0 [0, 100, 250, 600])) :=
  ⟨by norm_num,
    debounce_no_double_fire 0 100 { cancelable := true } [0, 100, 250, 600] (by norm_num)⟩

lemma ratTrunc_of_nonneg {x : ℚ} (h : 0 ≤ x) : ratTrunc x = ⌊x⌋ := if_pos h

lemma floor_div_sixty (q : ℚ) : ⌊q / 60⌋ = ⌊q⌋ / 60 := by
  have h60 : (0:ℚ) < 60 := by norm_num
  rw [Int.floor_eq_iff]
  constructor
  · rw [le_div_iff₀ h60]
    have h1 : ((⌊q⌋ / 60 : ℤ) : ℚ) * 60 ≤ ((⌊q⌋ : ℤ) : ℚ) := by
      have hle : (⌊q⌋ / 60) * 60 ≤ ⌊q⌋ := by omega
      exact_mod_cast hle
    exact h1.trans (Int.floor_le q)
  · rw [div_lt_iff₀ h60]
    have h2 : ((⌊q⌋ : ℤ) : ℚ) + 1 ≤ (((⌊q⌋ / 60 + 1) : ℤ) : ℚ) * 60 := by
      have hle : ⌊q⌋ + 1 ≤ (⌊q⌋ / 60 + 1) * 60 := by omega
      exact_mod_cast hle
    have h3 := Int.lt_floor_add_one q
    push_cast at h2 ⊢
    linarith

lemma floor_jsFmod_sixty {q : ℚ} (hq : 0 ≤ q) : ⌊jsFmod q 60⌋ = ⌊q⌋ % 60 := by
  unfold jsFmod
  rw [ratTrunc_of_nonneg (by positivity)]
  have hcast : (60:ℚ) * ((⌊q / 60⌋ : ℤ) : ℚ) = ((60 * ⌊q / 60⌋ : ℤ) : ℚ) := by
    push_cast
    ring
  rw [hcast, Int.floor_sub_int, floor_div_sixty]
  omega

/-- C10: the time formatter is total: every finite non-negative seconds value
q is rendered as floor(q/60), a colon, and the two-digit zero-padded value of
floor(q) mod 60; every non-finite input (NaN or either infinity, e.g. the
duration before metadata loads) renders as "0:00"; and the progress fill
percentage is 0 whenever the duration is 0 or non-finite. -/
theorem formatTime_total_spec (q : ℚ) (hq : 0 ≤ q) :
    formatTime (.finite q)
      = toString ⌊q / 60⌋ ++ ":" ++ padStart2 (toString (⌊q⌋ % 60))
    ∧ formatTime .nan = "0:00"
    ∧ formatTime .posInf = "0:00"
    ∧ formatTime .negInf = "0:00"
    ∧ (∀ c : ℚ, progressPercent c (.finite 0) = 0
        ∧ progressPercent c .nan = 0
        ∧ progressPercent c .posInf = 0
        ∧ progressPercent c .negInf = 0) := by
  refine ⟨?_, rfl, rfl, rfl, fun c => ⟨rfl, rfl, rfl, rfl⟩⟩
  show toString ⌊q / 60⌋ ++ ":" ++ padStart2 (toString ⌊jsFmod q 60⌋)
      = toString ⌊q / 60⌋ ++ ":" ++ padStart2 (toString (⌊q⌋ % 60))
  rw [floor_jsFmod_sixty hq]

/-- Witness for C10 at 125 seconds: the formatter yields "2:05". -/
theorem formatTime_total_spec_witness :
    ((0:ℚ) ≤ 125)
    ∧ (formatTime (.finite 125)
        = toString ⌊(125:ℚ) / 60⌋ ++ ":" ++ padStart2 (toString (⌊(125:ℚ)⌋ % 60))
      ∧ formatTime .nan = "0:00"
      ∧ formatTime .posInf = "0:00"
      ∧ formatTime .negInf = "0:00"
      ∧ (∀ c : ℚ, progressPercent c (.finite 0) = 0
          ∧ progressPercent c .nan = 0
          ∧ progressPercent c .posInf = 0
          ∧ progressPercent c .negInf = 0)) :=
  ⟨by norm_num, formatTime_total_spec 125 (by norm_num)⟩
